import Mathlib

/-
Verification development for the workspace lifecycle worker
(`server/workspace-service/src/service.ts`).

The worker is embedded shallowly: each handler of `WorkspaceWorker` is
translated into a pure Lean function that returns the list of observable
actions it performs (events sent to the control-plane, transactor
maintenance calls, destructive DB deletes, reindex requests, storage
adapter lifecycle, error-handling side effects), together with a flag
saying whether the handler returned normally or threw.  External
collaborators (`createWorkspace`, `upgradeWorkspace`, `doBackupWorkspace`,
`doRestoreWorkspace`, the destroy adapter, the reindex fetch) are
abstracted by an oracle recording their outcomes; the worker code itself
is translated branch by branch from the source.
-/

/-- Snapshot of a workspace as received from the control-plane
(`BaseWorkspaceInfo`).  Only the fields read by `service.ts` are kept:
`workspace` (string id), `mode` (optional mode string), `progress`
(optional percentage), `disabled` (optional flag). -/
structure WsInfo where
  workspace : String
  mode : Option String
  progress : Option Int
  disabled : Option Bool
deriving DecidableEq, Repr

/-- The subset of `WorkspaceOptions` the embedded code inspects:
`ignore` (comma-separated ignore string, optional) and whether
`opt.backup` is defined (the adapter/bucket payload itself is opaque). -/
structure Options where
  ignore : Option String
  backup : Bool
deriving DecidableEq, Repr

/-- Outcomes of the external collaborators invoked by the handlers:
`createOk`/`upgradeOk` — whether `createWorkspace`/`upgradeWorkspace`
resolve or reject; `deleteOk` — whether `adapter.deleteWorkspace`
resolves; `fetchOk` — whether the reindex `fetch` succeeds with a 2xx
status; `backupThrows`/`backupRes` — whether `doBackupWorkspace` throws,
and its boolean result when it does not; likewise `restoreThrows` /
`restoreRes` for `doRestoreWorkspace`. -/
structure Oracle where
  createOk : Bool
  upgradeOk : Bool
  deleteOk : Bool
  fetchOk : Bool
  backupThrows : Bool
  backupRes : Bool
  restoreThrows : Bool
  restoreRes : Bool
deriving DecidableEq, Repr

/-- Observable actions of the worker, in the order the source performs
them.  `sendEvent e p` is an `updateWorkspaceInfo` call with event `e`
and progress `p`; `transactorMaintenance` is the force-close `PUT` of
`sendTransactorMaitenance`; `dbDelete` is the destructive
`adapter.deleteWorkspace` call issued by `doCleanup`; `reindex b` is the
fulltext `PUT /api/v1/reindex` with `onlyDrop = b`; the remaining
constructors record storage-adapter lifecycle, external operation
invocations, `opt.errorHandler`, `Analytics.handleError`, `ctx.error`
logging, and the unknown-mode log line. -/
inductive Act where
  | sendEvent (event : String) (progress : Int)
  | transactorMaintenance
  | dbDelete
  | reindex (onlyDrop : Bool)
  | buildStorageAdapter
  | backupCall (fullCheck : Bool)
  | restoreCall
  | closeStorageAdapter
  | createWorkspaceCall
  | upgradeWorkspaceCall
  | errorHandlerCall
  | analyticsError
  | logError
  | logUnknownMode
deriving DecidableEq, Repr

/-- Result of an external backup/restore pipeline run: it either returned
a boolean or threw. -/
inductive ExtResult where
  | ok (b : Bool)
  | threw
deriving DecidableEq, Repr

/-- JavaScript `hay.includes(needle)`: substring containment.  This is
what `(opt.ignore ?? '').includes(ws.workspace)` computes. -/
def strIncludes (hay needle : String) : Bool :=
  decide (needle.toList <:+: hay.toList)

/-- Modelled from the spec: `isArchivingMode` lives in
`@hcengineering/core`, which is not under `src/`; per §3 and §4.8 of the
spec the archiving modes are the four `archiving-*` values of the mode
enumeration. -/
def isArchivingMode (m : Option String) : Bool :=
  m == some "archiving-pending-backup" || m == some "archiving-backup" ||
  m == some "archiving-pending-clean" || m == some "archiving-clean"

/-- Modelled from the spec: `isMigrationMode` lives in
`@hcengineering/core`, which is not under `src/`; per §3 and §4.8 of the
spec the migration modes are the four `migration-*` values. -/
def isMigrationMode (m : Option String) : Bool :=
  m == some "migration-pending-backup" || m == some "migration-backup" ||
  m == some "migration-pending-clean" || m == some "migration-clean"

/-- Modelled from the spec: `isRestoringMode` lives in
`@hcengineering/core`, which is not under `src/`; per §3 and §4.8 of the
spec the restoring modes are `pending-restore` and `restoring`. -/
def isRestoringMode (m : Option String) : Bool :=
  m == some "pending-restore" || m == some "restoring"

/-- Trace of `_createWorkspace` (service.ts:206-285).  If
`mode !== 'creating' || (progress ?? 0) < 30` the external
`createWorkspace` collaborator is run (a rejection is caught in-method:
`errorHandler` then logging); otherwise a single `create-done` event is
sent at the observed progress.  The method never rethrows. -/
def createActions (ws : WsInfo) (createOk : Bool) : List Act :=
  if ws.mode ≠ some "creating" ∨ ws.progress.getD 0 < 30 then
    if createOk then [Act.createWorkspaceCall]
    else [Act.createWorkspaceCall, Act.errorHandlerCall]
  else
    [Act.sendEvent "create-done" (ws.progress.getD 0)]

/-- The skip condition of `_upgradeWorkspace` (service.ts:288-296):
`disabled === true`, an archiving / migration / restoring mode, or
`(opt.ignore ?? '').includes(ws.workspace)` (a substring test). -/
def upgradeSkip (ws : WsInfo) (opt : Options) : Bool :=
  (ws.disabled == some true) || isArchivingMode ws.mode || isMigrationMode ws.mode ||
  isRestoringMode ws.mode || strIncludes (opt.ignore.getD "") ws.workspace

/-- Trace of `_upgradeWorkspace` (service.ts:287-370): early return with
no actions when `upgradeSkip` holds, otherwise the external
`upgradeWorkspace` runs (a rejection is caught in-method). -/
def upgradeActions (ws : WsInfo) (opt : Options) (upgradeOk : Bool) : List Act :=
  if upgradeSkip ws opt then []
  else if upgradeOk then [Act.upgradeWorkspaceCall]
  else [Act.upgradeWorkspaceCall, Act.errorHandlerCall]

/-- Trace of `doReindexFulltext` (service.ts:383-406): when `fulltextUrl`
is configured (`ft`), issue the reindex `PUT` with `onlyDrop :=
clearIndexes`; a failed fetch or non-2xx status is caught and logged
(`ctx.error`).  The method never throws. -/
def doReindexFulltext (ft : Bool) (fetchOk : Bool) (clearIndexes : Bool) : List Act :=
  if ft then
    Act.reindex clearIndexes :: (if fetchOk then [] else [Act.logError])
  else []

/-- Trace and success flag of `doCleanup` (service.ts:375-381): the
destroy adapter's `deleteWorkspace` is always invoked; if it throws the
exception propagates (second component `false`) and the reindex step is
skipped, otherwise `doReindexFulltext` runs with the given flag. -/
def doCleanup (ft : Bool) (o : Oracle) (cleanIndexes : Bool) : List Act × Bool :=
  if o.deleteOk then
    (Act.dbDelete :: doReindexFulltext ft o.fetchOk cleanIndexes, true)
  else
    ([Act.dbDelete], false)

/-- Trace and result of `doBackup` (service.ts:524-608): immediate
`false` when `opt.backup` is undefined, before any storage adapter is
built; otherwise the adapter is built, `doBackupWorkspace` runs with the
given `doFullCheck`, and the `finally` block closes the adapter whether
the pipeline returned or threw. -/
def doBackup (opt : Options) (o : Oracle) (doFullCheck : Bool) : List Act × ExtResult :=
  if opt.backup = false then ([], ExtResult.ok false)
  else
    ([Act.buildStorageAdapter, Act.backupCall doFullCheck, Act.closeStorageAdapter],
     if o.backupThrows then ExtResult.threw else ExtResult.ok o.backupRes)

/-- Trace and result of `doRestore` (service.ts:610-671), mirroring
`doBackup`. -/
def doRestore (opt : Options) (o : Oracle) : List Act × ExtResult :=
  if opt.backup = false then ([], ExtResult.ok false)
  else
    ([Act.buildStorageAdapter, Act.restoreCall, Act.closeStorageAdapter],
     if o.restoreThrows then ExtResult.threw else ExtResult.ok o.restoreRes)

/-- The `archiving-pending-backup`/`archiving-backup` arm
(service.ts:447-456): started event, transactor maintenance, then
`doBackup` with `doFullCheck = true`; the done event is sent only on a
truthy result, and a throwing pipeline propagates (flag `false`). -/
def archBackupArm (opt : Options) (o : Oracle) : List Act × Bool :=
  match (doBackup opt o true).2 with
  | ExtResult.threw =>
    (Act.sendEvent "archiving-backup-started" 0 :: Act.transactorMaintenance ::
      (doBackup opt o true).1, false)
  | ExtResult.ok true =>
    (Act.sendEvent "archiving-backup-started" 0 :: Act.transactorMaintenance ::
      ((doBackup opt o true).1 ++ [Act.sendEvent "archiving-backup-done" 100]), true)
  | ExtResult.ok false =>
    (Act.sendEvent "archiving-backup-started" 0 :: Act.transactorMaintenance ::
      (doBackup opt o true).1, true)

/-- The `archiving-pending-clean`/`archiving-clean` arm
(service.ts:457-469): started event and `doCleanup` with
`cleanIndexes = false` — there is no transactor maintenance call in this
arm; a throwing cleanup is caught (`Analytics.handleError`, early
return without the done event). -/
def archCleanArm (ft : Bool) (o : Oracle) : List Act × Bool :=
  if (doCleanup ft o false).2 then
    (Act.sendEvent "archiving-clean-started" 0 ::
      ((doCleanup ft o false).1 ++ [Act.sendEvent "archiving-clean-done" 100]), true)
  else
    (Act.sendEvent "archiving-clean-started" 0 ::
      ((doCleanup ft o false).1 ++ [Act.analyticsError]), true)

/-- The `pending-deletion`/`deleting` arm (service.ts:470-483): started
event, transactor maintenance, `doCleanup` with `cleanIndexes = true`;
a throwing cleanup is caught (`Analytics.handleError`, early return
without the done event). -/
def deleteArm (ft : Bool) (o : Oracle) : List Act × Bool :=
  if (doCleanup ft o true).2 then
    (Act.sendEvent "delete-started" 0 :: Act.transactorMaintenance ::
      ((doCleanup ft o true).1 ++ [Act.sendEvent "delete-done" 100]), true)
  else
    (Act.sendEvent "delete-started" 0 :: Act.transactorMaintenance ::
      ((doCleanup ft o true).1 ++ [Act.analyticsError]), true)

/-- The `migration-pending-backup`/`migration-backup` arm
(service.ts:485-492): like the archiving backup arm but with
`doFullCheck = false`. -/
def migBackupArm (opt : Options) (o : Oracle) : List Act × Bool :=
  match (doBackup opt o false).2 with
  | ExtResult.threw =>
    (Act.sendEvent "migrate-backup-started" 0 :: Act.transactorMaintenance ::
      (doBackup opt o false).1, false)
  | ExtResult.ok true =>
    (Act.sendEvent "migrate-backup-started" 0 :: Act.transactorMaintenance ::
      ((doBackup opt o false).1 ++ [Act.sendEvent "migrate-backup-done" 100]), true)
  | ExtResult.ok false =>
    (Act.sendEvent "migrate-backup-started" 0 :: Act.transactorMaintenance ::
      (doBackup opt o false).1, true)

/-- The `migration-pending-clean`/`migration-clean` arm
(service.ts:493-509): started event, transactor maintenance, then the
destructive cleanup only when `process.env.MIGRATION_CLEANUP === 'true'`
(a throwing cleanup is caught with an early return); the done event is
sent with progress 0 — not 100 — as in the source. -/
def migCleanArm (env : Option String) (ft : Bool) (o : Oracle) : List Act × Bool :=
  if env = some "true" then
    if (doCleanup ft o false).2 then
      (Act.sendEvent "migrate-clean-started" 0 :: Act.transactorMaintenance ::
        ((doCleanup ft o false).1 ++ [Act.sendEvent "migrate-clean-done" 0]), true)
    else
      (Act.sendEvent "migrate-clean-started" 0 :: Act.transactorMaintenance ::
        ((doCleanup ft o false).1 ++ [Act.analyticsError]), true)
  else
    ([Act.sendEvent "migrate-clean-started" 0, Act.transactorMaintenance,
      Act.sendEvent "migrate-clean-done" 0], true)

/-- The `pending-restore`/`restoring` arm (service.ts:510-518): started
event, `doRestore`; on a truthy result a non-destructive reindex then
the done event; a throwing pipeline propagates (flag `false`).  No
transactor maintenance in this arm. -/
def restoreArm (ft : Bool) (opt : Options) (o : Oracle) : List Act × Bool :=
  match (doRestore opt o).2 with
  | ExtResult.threw => (Act.sendEvent "restore-started" 0 :: (doRestore opt o).1, false)
  | ExtResult.ok true =>
    (Act.sendEvent "restore-started" 0 ::
      ((doRestore opt o).1 ++ doReindexFulltext ft o.fetchOk false ++
        [Act.sendEvent "restore-done" 100]), true)
  | ExtResult.ok false => (Act.sendEvent "restore-started" 0 :: (doRestore opt o).1, true)

/-- Trace and normal-return flag of `doWorkspaceOperation`
(service.ts:422-522), the lifecycle dispatcher, translated arm by arm
from the `switch (workspace.mode ?? 'active')`.  `env` is
`process.env.MIGRATION_CLEANUP`; `ft` says whether `fulltextUrl` is
configured.  `sendEvent` calls use until-success retry and are modelled
as succeeding; `sendTransactorMaitenance` catches internally and never
throws. -/
def doWorkspaceOperation (env : Option String) (ft : Bool) (ws : WsInfo) (opt : Options)
    (o : Oracle) : List Act × Bool :=
  match ws.mode.getD "active" with
  | "pending-creation" | "creating" => (createActions ws o.createOk, true)
  | "upgrading" | "active" => (upgradeActions ws opt o.upgradeOk, true)
  | "archiving-pending-backup" | "archiving-backup" => archBackupArm opt o
  | "archiving-pending-clean" | "archiving-clean" => archCleanArm ft o
  | "pending-deletion" | "deleting" => deleteArm ft o
  | "migration-pending-backup" | "migration-backup" => migBackupArm opt o
  | "migration-pending-clean" | "migration-clean" => migCleanArm env ft o
  | "pending-restore" | "restoring" => restoreArm ft opt o
  | _ => ([Act.logUnknownMode], true)

/-- The action trace of one `doWorkspaceOperation` run. -/
def opTrace (env : Option String) (ft : Bool) (ws : WsInfo) (opt : Options)
    (o : Oracle) : List Act :=
  (doWorkspaceOperation env ft ws opt o).1

theorem doWsOp_eq_delete1 (env : Option String) (ft : Bool) (n : String) (pr : Option Int)
    (d : Option Bool) (opt : Options) (o : Oracle) :
    doWorkspaceOperation env ft (WsInfo.mk n (some "pending-deletion") pr d) opt o =
      deleteArm ft o := rfl

theorem doWsOp_eq_delete2 (env : Option String) (ft : Bool) (n : String) (pr : Option Int)
    (d : Option Bool) (opt : Options) (o : Oracle) :
    doWorkspaceOperation env ft (WsInfo.mk n (some "deleting") pr d) opt o =
      deleteArm ft o := rfl

theorem doWsOp_eq_archClean1 (env : Option String) (ft : Bool) (n : String) (pr : Option Int)
    (d : Option Bool) (opt : Options) (o : Oracle) :
    doWorkspaceOperation env ft (WsInfo.mk n (some "archiving-pending-clean") pr d) opt o =
      archCleanArm ft o := rfl

theorem doWsOp_eq_archClean2 (env : Option String) (ft : Bool) (n : String) (pr : Option Int)
    (d : Option Bool) (opt : Options) (o : Oracle) :
    doWorkspaceOperation env ft (WsInfo.mk n (some "archiving-clean") pr d) opt o =
      archCleanArm ft o := rfl

theorem doWsOp_eq_migClean1 (env : Option String) (ft : Bool) (n : String) (pr : Option Int)
    (d : Option Bool) (opt : Options) (o : Oracle) :
    doWorkspaceOperation env ft (WsInfo.mk n (some "migration-pending-clean") pr d) opt o =
      migCleanArm env ft o := rfl

theorem doWsOp_eq_migClean2 (env : Option String) (ft : Bool) (n : String) (pr : Option Int)
    (d : Option Bool) (opt : Options) (o : Oracle) :
    doWorkspaceOperation env ft (WsInfo.mk n (some "migration-clean") pr d) opt o =
      migCleanArm env ft o := rfl

theorem doWsOp_eq_archBackup1 (env : Option String) (ft : Bool) (n : String) (pr : Option Int)
    (d : Option Bool) (opt : Options) (o : Oracle) :
    doWorkspaceOperation env ft (WsInfo.mk n (some "archiving-pending-backup") pr d) opt o =
      archBackupArm opt o := rfl

theorem doWsOp_eq_archBackup2 (env : Option String) (ft : Bool) (n : String) (pr : Option Int)
    (d : Option Bool) (opt : Options) (o : Oracle) :
    doWorkspaceOperation env ft (WsInfo.mk n (some "archiving-backup") pr d) opt o =
      archBackupArm opt o := rfl

theorem doWsOp_eq_migBackup1 (env : Option String) (ft : Bool) (n : String) (pr : Option Int)
    (d : Option Bool) (opt : Options) (o : Oracle) :
    doWorkspaceOperation env ft (WsInfo.mk n (some "migration-pending-backup") pr d) opt o =
      migBackupArm opt o := rfl

theorem doWsOp_eq_migBackup2 (env : Option String) (ft : Bool) (n : String) (pr : Option Int)
    (d : Option Bool) (opt : Options) (o : Oracle) :
    doWorkspaceOperation env ft (WsInfo.mk n (some "migration-backup") pr d) opt o =
      migBackupArm opt o := rfl

theorem doWsOp_eq_restore1 (env : Option String) (ft : Bool) (n : String) (pr : Option Int)
    (d : Option Bool) (opt : Options) (o : Oracle) :
    doWorkspaceOperation env ft (WsInfo.mk n (some "pending-restore") pr d) opt o =
      restoreArm ft opt o := rfl

theorem doWsOp_eq_restore2 (env : Option String) (ft : Bool) (n : String) (pr : Option Int)
    (d : Option Bool) (opt : Options) (o : Oracle) :
    doWorkspaceOperation env ft (WsInfo.mk n (some "restoring") pr d) opt o =
      restoreArm ft opt o := rfl

theorem deleteArm_shape (ft : Bool) (o : Oracle) :
    ∃ rest : List Act, (deleteArm ft o).1 =
      Act.sendEvent "delete-started" 0 :: Act.transactorMaintenance :: rest ∧
      Act.dbDelete ∈ rest := by
  by_cases hdel : o.deleteOk <;>
    simp only [deleteArm, doCleanup, hdel, if_true, if_false, Bool.false_eq_true,
      reduceIte] <;>
    exact ⟨_, rfl, by simp⟩

theorem migCleanArm_shape (ft : Bool) (o : Oracle) :
    ∃ rest : List Act, (migCleanArm (some "true") ft o).1 =
      Act.sendEvent "migrate-clean-started" 0 :: Act.transactorMaintenance :: rest ∧
      Act.dbDelete ∈ rest := by
  by_cases hdel : o.deleteOk <;>
    simp only [migCleanArm, doCleanup, hdel, if_true, if_false, Bool.false_eq_true,
      reduceIte] <;>
    exact ⟨_, rfl, by simp⟩

theorem archCleanArm_no_maint (ft : Bool) (o : Oracle) :
    Act.dbDelete ∈ (archCleanArm ft o).1 ∧
    Act.transactorMaintenance ∉ (archCleanArm ft o).1 := by
  by_cases hdel : o.deleteOk <;> by_cases hft : ft <;> by_cases hfo : o.fetchOk <;>
    simp [archCleanArm, doCleanup, doReindexFulltext, hdel, hft, hfo]

example :
    opTrace none true (WsInfo.mk "w" (some "archiving-clean") none none)
      (Options.mk none false) (Oracle.mk true true true true false true false true) =
    [Act.sendEvent "archiving-clean-started" 0, Act.dbDelete, Act.reindex false,
     Act.sendEvent "archiving-clean-done" 100] := by decide

/-- JavaScript `Math.round` on the reals the progress callbacks carry:
round half toward positive infinity, `⌊q + 1/2⌋`.  Written on the
numerator/denominator representation so it evaluates by kernel
reduction; `jsRound_eq` recovers the floor form. -/
def jsRound (q : ℚ) : ℤ :=
  (2 * q.num + (q.den : ℤ)) / (2 * (q.den : ℤ))

theorem jsRound_eq (q : ℚ) : jsRound q = ⌊q + 1 / 2⌋ := by
  have hd : ((q.den : ℚ)) ≠ 0 := by
    exact_mod_cast q.den_nz
  have hnum : (q.num : ℚ) = q * (q.den : ℚ) := (Rat.mul_den_eq_num q).symm
  have hq : q + 1 / 2 = ((2 * q.num + (q.den : ℤ) : ℤ) : ℚ) / ((2 * q.den : ℕ) : ℚ) := by
    rw [eq_div_iff (by positivity)]
    push_cast
    rw [hnum]
    ring
  rw [jsRound, hq, Rat.floor_intCast_div_natCast]
  push_cast
  rfl

theorem jsRound_mono {a b : ℚ} (h : a ≤ b) : jsRound a ≤ jsRound b := by
  rw [jsRound_eq, jsRound_eq]
  exact Int.floor_le_floor (by linarith)

example : jsRound 0 = 0 := by decide
example : jsRound 50 = 50 := by decide

/-- The debounced progress callback handed to
`doBackupWorkspace`/`doRestoreWorkspace` (service.ts:591-597 and
654-660): the closure variable `progress` holds the last tracked rounded
value; each raw report `_p` emits `Math.round(_p)` exactly when it
differs from the tracked value, updating it.  `reportRun last ps` is the
list of emitted `progress` values for the raw reports `ps`, starting
from tracked value `last`. -/
def reportRun : ℤ → List ℚ → List ℤ
  | _, [] => []
  | last, p :: rest =>
    if last = jsRound p then reportRun last rest
    else jsRound p :: reportRun (jsRound p) rest

/-- Emitted progress values of a phase: the closure initialises
`let progress = 0` (service.ts:557 and 638). -/
def emittedProgress (ps : List ℚ) : List ℤ :=
  reportRun 0 ps

theorem reportRun_chain_ne (last : ℤ) (ps : List ℚ) :
    List.Chain (fun a b => a ≠ b) last (reportRun last ps) := by
  induction ps generalizing last with
  | nil => exact List.Chain.nil
  | cons p rest ih =>
    rw [reportRun]
    by_cases he : last = jsRound p
    · simpa [he] using ih last
    · simp only [if_neg he]
      exact List.Chain.cons he (ih (jsRound p))

theorem reportRun_chain_le (last : ℤ) (ps : List ℚ)
    (h : List.Chain (fun a b => a ≤ b) last (ps.map jsRound)) :
    List.Chain (fun a b => a ≤ b) last (reportRun last ps) := by
  induction ps generalizing last with
  | nil => exact List.Chain.nil
  | cons p rest ih =>
    rw [List.map_cons] at h
    cases h with
    | cons hle hch =>
      rw [reportRun]
      by_cases he : last = jsRound p
      · simp only [if_pos he]
        exact ih last (he ▸ hch)
      · simp only [if_neg he]
        exact List.Chain.cons hle (ih (jsRound p) hch)

theorem reportRun_chain'_le (last : ℤ) (ps : List ℚ)
    (h : List.Chain' (fun a b => a ≤ b) (ps.map jsRound)) :
    List.Chain' (fun a b => a ≤ b) (reportRun last ps) := by
  cases ps with
  | nil => exact trivial
  | cons p rest =>
    rw [List.map_cons] at h
    rw [reportRun]
    by_cases he : last = jsRound p
    · simp only [if_pos he]
      exact reportRun_chain'_le last rest h.tail
    · simp only [if_neg he]
      exact reportRun_chain_le (jsRound p) rest h

/-- State of the concurrency gate of `WorkspaceWorker`: the in-memory
`runningTasks` counter and whether `resolveBusy` currently holds a
resolver (`null` is `false`). -/
structure WorkerState where
  runningTasks : Int
  resolveBusy : Bool
deriving DecidableEq, Repr

/-- Interleaved transitions of the worker's cooperative scheduling.
`dispatch` is the poller starting a job through `exec`
(service.ts:193-194, incrementing `runningTasks`; the poller only
reaches it after `waitForAvailableThread`, so `runningTasks < limit`).
`finish threw` is the `finally` block of `exec` (service.ts:196-203):
it runs once per dispatched job whether the handler resolved or threw,
decrements `runningTasks`, and resolves-and-clears `resolveBusy` when
set.  `block` is `waitForAvailableThread` installing `resolveBusy` when
no thread is available (service.ts:120-128). -/
inductive Step (limit : Int) : WorkerState → WorkerState → Prop
  | dispatch (s : WorkerState) :
      s.runningTasks < limit → Step limit s ⟨s.runningTasks + 1, s.resolveBusy⟩
  | finish (s : WorkerState) (threw : Bool) :
      0 < s.runningTasks → Step limit s ⟨s.runningTasks - 1, false⟩
  | block (s : WorkerState) :
      ¬ s.runningTasks < limit → Step limit s ⟨s.runningTasks, true⟩

/-- States reachable from the initial worker state
(`runningTasks = 0`, `resolveBusy = null`). -/
inductive Reachable (limit : Int) : WorkerState → Prop
  | init : Reachable limit ⟨0, false⟩
  | step {s t : WorkerState} : Reachable limit s → Step limit s t → Reachable limit t

theorem reachable_bounds {limit : Int} (hl : 0 ≤ limit) {s : WorkerState}
    (hs : Reachable limit s) : 0 ≤ s.runningTasks ∧ s.runningTasks ≤ limit := by
  induction hs with
  | init => exact ⟨le_refl 0, hl⟩
  | step _ hstep ih => cases hstep <;> simp_all <;> omega

/-- Result of one `getPendingWorkspace` call as observed by the loop:
a workspace, nothing pending, or a thrown error. -/
inductive PollResult where
  | found (ws : WsInfo)
  | nothing
  | errored
deriving DecidableEq, Repr

/-- The guarded pickup in `start` (service.ts:167-173): the `try/catch`
around `getPendingWorkspace` turns an error into a logged
`ctx.error` and an `undefined` result. -/
def getPendingStep : PollResult → Option WsInfo × List Act
  | PollResult.found ws => (some ws, [])
  | PollResult.nothing => (none, [])
  | PollResult.errored => (none, [Act.logError])

/-- The dispatched task body (service.ts:177-188):
`doWorkspaceOperation(...).catch(err => { Analytics.handleError(err);
ctx.error(...) })` — a rejected handler is routed to analytics, logged
and consumed, so the task itself always completes. -/
def dispatchJob (env : Option String) (ft : Bool) (ws : WsInfo) (opt : Options)
    (o : Oracle) : List Act :=
  if (doWorkspaceOperation env ft ws opt o).2 then
    (doWorkspaceOperation env ft ws opt o).1
  else
    (doWorkspaceOperation env ft ws opt o).1 ++ [Act.analyticsError, Act.logError]

/-- One iteration body of the polling loop (service.ts:164-190) after
the cancellation test: poll, then either sleep (`true`) or dispatch.
Returns the flag and the actions the iteration performs. -/
def loopIter (env : Option String) (ft : Bool) (opt : Options) (o : Oracle)
    (poll : PollResult) : Bool × List Act :=
  match getPendingStep poll with
  | (none, l) => (true, l)
  | (some ws, l) => (false, l ++ dispatchJob env ft ws opt o)

/-- The polling loop `while (!isCanceled())` (service.ts:164), run for
at most `fuel` iterations starting at iteration index `i`; `polls` and
`os` give each iteration's poll result and collaborator outcomes.
Returns the accumulated actions and `some j` when the loop exited
because `canceled j` held, `none` when the fuel ran out with the loop
still running. -/
def runLoop (env : Option String) (ft : Bool) (opt : Options) (canceled : Nat → Bool)
    (polls : Nat → PollResult) (os : Nat → Oracle) : Nat → Nat → List Act × Option Nat
  | 0, _ => ([], none)
  | fuel + 1, i =>
    if canceled i then ([], some i)
    else
      let it := loopIter env ft opt (os i) (polls i)
      let rest := runLoop env ft opt canceled polls os fuel (i + 1)
      (it.2 ++ rest.1, rest.2)

/-- A workspace snapshot in `archiving-clean` mode. -/
def wsArchClean : WsInfo := WsInfo.mk "w" (some "archiving-clean") none none

/-- Options with neither `ignore` nor `backup` configured. -/
def optDefault : Options := Options.mk none false

/-- Collaborator outcomes where every external call succeeds. -/
def oracleAllOk : Oracle := Oracle.mk true true true true false true false true

/-- A workspace snapshot in `archiving-backup` mode. -/
def wsBackupThrown : WsInfo := WsInfo.mk "wb" (some "archiving-backup") none none

/-- Options with `backup` configured. -/
def optWithBackup : Options := Options.mk none true

/-- Collaborator outcomes where `doBackupWorkspace` throws. -/
def oracleThrow : Oracle := Oracle.mk true true true true true true false true

/-- A cancellation predicate that turns true from iteration 2 on. -/
def cancelFromTwo : Nat → Bool := fun n => decide (2 ≤ n)

/-- A poll source that never has pending work. -/
def pollsNothing : Nat → PollResult := fun _ => PollResult.nothing

/-- A constant per-iteration oracle. -/
def osConst : Nat → Oracle := fun _ => oracleAllOk

theorem runLoop_cancel (env : Option String) (ft : Bool) (opt : Options)
    (canceled : Nat → Bool) (polls : Nat → PollResult) (os : Nat → Oracle) :
    ∀ (fuel i j : Nat), (runLoop env ft opt canceled polls os fuel i).2 = some j →
      canceled j = true := by
  intro fuel
  induction fuel with
  | zero => intro i j h; simp [runLoop] at h
  | succ n ih =>
    intro i j h
    rw [runLoop] at h
    by_cases hc : canceled i
    · simp [hc] at h
      simpa [← h] using hc
    · simp [hc] at h
      exact ih (i + 1) j h

/-- C1 counterexample: in mode `archiving-clean` the worker performs the
destructive DB delete without any prior transactor maintenance call —
the `archiving-pending-clean`/`archiving-clean` arm of
`doWorkspaceOperation` (service.ts:457-469) never calls
`sendTransactorMaitenance`, unlike the deletion and migration-clean
arms. -/
theorem C1_counterexample :
    Act.dbDelete ∈ opTrace none true wsArchClean optDefault oracleAllOk ∧
    Act.transactorMaintenance ∉ opTrace none true wsArchClean optDefault oracleAllOk := by
  decide

/-- C1 (amended): for `pending-deletion`/`deleting`, and for
`migration-pending-clean`/`migration-clean` when `MIGRATION_CLEANUP` is
`'true'`, the worker invokes the transactor maintenance call
(force-close) before the destructive DB delete; for
`archiving-pending-clean`/`archiving-clean` the destructive delete is
performed with no transactor maintenance call at all. -/
theorem C1_amended (env : Option String) (ft : Bool) (ws : WsInfo) (opt : Options)
    (o : Oracle) :
    (ws.mode = some "pending-deletion" ∨ ws.mode = some "deleting" →
      ∃ rest : List Act, opTrace env ft ws opt o =
        Act.sendEvent "delete-started" 0 :: Act.transactorMaintenance :: rest ∧
        Act.dbDelete ∈ rest) ∧
    ((ws.mode = some "migration-pending-clean" ∨ ws.mode = some "migration-clean") →
      env = some "true" →
      ∃ rest : List Act, opTrace env ft ws opt o =
        Act.sendEvent "migrate-clean-started" 0 :: Act.transactorMaintenance :: rest ∧
        Act.dbDelete ∈ rest) ∧
    (ws.mode = some "archiving-pending-clean" ∨ ws.mode = some "archiving-clean" →
      Act.dbDelete ∈ opTrace env ft ws opt o ∧
      Act.transactorMaintenance ∉ opTrace env ft ws opt o) := by
  obtain ⟨wname, wmode, wprog, wdis⟩ := ws
  refine ⟨?_, ?_, ?_⟩
  · rintro (h | h)
    · replace h : wmode = some "pending-deletion" := h
      subst h
      simp only [opTrace, doWsOp_eq_delete1]
      exact deleteArm_shape ft o
    · replace h : wmode = some "deleting" := h
      subst h
      simp only [opTrace, doWsOp_eq_delete2]
      exact deleteArm_shape ft o
  · rintro (h | h) henv <;> subst henv
    · replace h : wmode = some "migration-pending-clean" := h
      subst h
      simp only [opTrace, doWsOp_eq_migClean1]
      exact migCleanArm_shape ft o
    · replace h : wmode = some "migration-clean" := h
      subst h
      simp only [opTrace, doWsOp_eq_migClean2]
      exact migCleanArm_shape ft o
  · rintro (h | h)
    · replace h : wmode = some "archiving-pending-clean" := h
      subst h
      simp only [opTrace, doWsOp_eq_archClean1]
      exact archCleanArm_no_maint ft o
    · replace h : wmode = some "archiving-clean" := h
      subst h
      simp only [opTrace, doWsOp_eq_archClean2]
      exact archCleanArm_no_maint ft o

/-- C2: for every workspace handled by the Create phase, if its mode is
not `creating` or its progress (defaulting to 0) is below 30, the full
external `createWorkspace` sequence is run and no direct `create-done`
event is emitted by the handler; otherwise `createWorkspace` is not
invoked and a single `create-done` event is emitted carrying the
observed progress value. -/
theorem C2_create_resume (ws : WsInfo) (createOk : Bool) :
    (ws.mode ≠ some "creating" ∨ ws.progress.getD 0 < 30 →
      Act.createWorkspaceCall ∈ createActions ws createOk ∧
      ∀ p : Int, Act.sendEvent "create-done" p ∉ createActions ws createOk) ∧
    (ws.mode = some "creating" → ¬ ws.progress.getD 0 < 30 →
      Act.createWorkspaceCall ∉ createActions ws createOk ∧
      createActions ws createOk = [Act.sendEvent "create-done" (ws.progress.getD 0)]) := by
  constructor
  · intro h
    rw [createActions, if_pos h]
    cases createOk <;> simp
  · intro h1 h2
    have hneg : ¬ (ws.mode ≠ some "creating" ∨ ws.progress.getD 0 < 30) := by
      push_neg
      exact ⟨h1, by omega⟩
    rw [createActions, if_neg hneg]
    simp

/-- C2 witness: the spec's scenario `{workspace: "w2", mode: "creating",
progress: 42}` — no `createWorkspace` run, a single `create-done`(42). -/
theorem C2_witness :
    Act.createWorkspaceCall ∉
      createActions (WsInfo.mk "w2" (some "creating") (some 42) none) true ∧
    createActions (WsInfo.mk "w2" (some "creating") (some 42) none) true =
      [Act.sendEvent "create-done" 42] :=
  (C2_create_resume (WsInfo.mk "w2" (some "creating") (some 42) none) true).2 rfl (by decide)

/-- C3: in every reachable worker state, `0 ≤ runningTasks ≤ limit`;
moreover from any reachable state with a running task, a `finish` step
(whether the handler resolved or threw) decrements `runningTasks` by
exactly one — never below zero — and leaves `resolveBusy` cleared. -/
theorem C3_running_tasks_invariant (limit : Int) (hl : 1 ≤ limit) (s : WorkerState)
    (hs : Reachable limit s) :
    (0 ≤ s.runningTasks ∧ s.runningTasks ≤ limit) ∧
    (∀ threw : Bool, 0 < s.runningTasks →
      ∃ t : WorkerState, Step limit s t ∧ Reachable limit t ∧
        t.runningTasks = s.runningTasks - 1 ∧ t.resolveBusy = false ∧
        0 ≤ t.runningTasks) := by
  have hb := reachable_bounds (le_trans zero_le_one hl) hs
  refine ⟨hb, ?_⟩
  intro threw h0
  refine ⟨⟨s.runningTasks - 1, false⟩, Step.finish s threw h0,
    Reachable.step hs (Step.finish s threw h0), rfl, rfl, ?_⟩
  have := hb.1
  simp only
  omega

/-- C3 witness: with `limit = 2`, the state after one dispatch is
reachable, within bounds, and a finish step behaves as stated. -/
theorem C3_witness :
    ((0 ≤ (WorkerState.mk 1 false).runningTasks ∧
      (WorkerState.mk 1 false).runningTasks ≤ 2) ∧
     (∀ threw : Bool, 0 < (WorkerState.mk 1 false).runningTasks →
       ∃ t : WorkerState, Step 2 (WorkerState.mk 1 false) t ∧ Reachable 2 t ∧
         t.runningTasks = (WorkerState.mk 1 false).runningTasks - 1 ∧
         t.resolveBusy = false ∧ 0 ≤ t.runningTasks)) :=
  C3_running_tasks_invariant 2 (by decide) (WorkerState.mk 1 false)
    (Reachable.step Reachable.init (Step.dispatch (WorkerState.mk 0 false) (by decide)))

/-- C4: the polling loop is never terminated by a workspace-level error:
an error from `getPendingWorkspace` is logged and treated as "no
workspace"; an error thrown inside a dispatched handler is caught at the
dispatch boundary, routed to analytics, logged and consumed; and the
loop exits only at an iteration where `isCanceled()` is true. -/
theorem C4_loop_error_containment (env : Option String) (ft : Bool) (ws : WsInfo)
    (opt : Options) (o : Oracle) (canceled : Nat → Bool) (polls : Nat → PollResult)
    (os : Nat → Oracle) (fuel i j : Nat)
    (hfail : (doWorkspaceOperation env ft ws opt o).2 = false)
    (hrun : (runLoop env ft opt canceled polls os fuel i).2 = some j) :
    getPendingStep PollResult.errored = (none, [Act.logError]) ∧
    dispatchJob env ft ws opt o =
      (doWorkspaceOperation env ft ws opt o).1 ++ [Act.analyticsError, Act.logError] ∧
    canceled j = true := by
  refine ⟨rfl, ?_, runLoop_cancel env ft opt canceled polls os fuel i j hrun⟩
  rw [dispatchJob, if_neg]
  rw [hfail]
  simp

/-- C4 witness: a handler whose backup pipeline throws is consumed at
the dispatch boundary, and a loop cancelled from iteration 2 exits
exactly there. -/
theorem C4_witness :
    getPendingStep PollResult.errored = (none, [Act.logError]) ∧
    dispatchJob none true wsBackupThrown optWithBackup oracleThrow =
      (doWorkspaceOperation none true wsBackupThrown optWithBackup oracleThrow).1 ++
        [Act.analyticsError, Act.logError] ∧
    cancelFromTwo 2 = true :=
  C4_loop_error_containment none true wsBackupThrown optWithBackup oracleThrow
    cancelFromTwo pollsNothing osConst 10 0 2 (by decide) (by decide)

theorem migCleanArm_events (env : Option String) (ft : Bool) (o : Oracle)
    (hok : env = some "true" → o.deleteOk = true) :
    (Act.dbDelete ∈ (migCleanArm env ft o).1 ↔ env = some "true") ∧
    (migCleanArm env ft o).1.head? = some (Act.sendEvent "migrate-clean-started" 0) ∧
    (migCleanArm env ft o).1.getLast? = some (Act.sendEvent "migrate-clean-done" 0) ∧
    (∀ p : Int, Act.sendEvent "migrate-clean-done" p ∈ (migCleanArm env ft o).1 → p = 0) := by
  by_cases henv : env = some "true"
  · have hdel := hok henv
    subst henv
    by_cases hft : ft <;> by_cases hfo : o.fetchOk <;>
      simp [migCleanArm, doCleanup, doReindexFulltext, hdel, hft, hfo]
  · simp [migCleanArm, henv]

/-- C5: for every workspace in mode `migration-pending-clean` or
`migration-clean` (with the destroy adapter succeeding whenever it is
invoked), the destructive DB delete is performed iff
`MIGRATION_CLEANUP = 'true'`; in either case the handler emits
`migrate-clean-started` at progress 0 first and `migrate-clean-done`
last, and every `migrate-clean-done` event carries progress 0, never
100. -/
theorem C5_migrate_clean (env : Option String) (ft : Bool) (ws : WsInfo) (opt : Options)
    (o : Oracle)
    (hmode : ws.mode = some "migration-pending-clean" ∨ ws.mode = some "migration-clean")
    (hok : env = some "true" → o.deleteOk = true) :
    (Act.dbDelete ∈ opTrace env ft ws opt o ↔ env = some "true") ∧
    (opTrace env ft ws opt o).head? = some (Act.sendEvent "migrate-clean-started" 0) ∧
    (opTrace env ft ws opt o).getLast? = some (Act.sendEvent "migrate-clean-done" 0) ∧
    (∀ p : Int, Act.sendEvent "migrate-clean-done" p ∈ opTrace env ft ws opt o → p = 0) := by
  obtain ⟨n, m, pr, d⟩ := ws
  rcases hmode with h | h
  · replace h : m = some "migration-pending-clean" := h
    subst h
    simp only [opTrace, doWsOp_eq_migClean1]
    exact migCleanArm_events env ft o hok
  · replace h : m = some "migration-clean" := h
    subst h
    simp only [opTrace, doWsOp_eq_migClean2]
    exact migCleanArm_events env ft o hok

/-- C5 witness: with `MIGRATION_CLEANUP = 'true'` and a succeeding
adapter, the migration-clean trace contains the DB delete, starts with
the started event at 0 and ends with the done event at 0. -/
theorem C5_witness :
    (Act.dbDelete ∈
        opTrace (some "true") true (WsInfo.mk "wm" (some "migration-clean") none none)
          optDefault oracleAllOk ↔ (some "true" : Option String) = some "true") ∧
    (opTrace (some "true") true (WsInfo.mk "wm" (some "migration-clean") none none)
        optDefault oracleAllOk).head? = some (Act.sendEvent "migrate-clean-started" 0) ∧
    (opTrace (some "true") true (WsInfo.mk "wm" (some "migration-clean") none none)
        optDefault oracleAllOk).getLast? = some (Act.sendEvent "migrate-clean-done" 0) ∧
    (∀ p : Int, Act.sendEvent "migrate-clean-done" p ∈
        opTrace (some "true") true (WsInfo.mk "wm" (some "migration-clean") none none)
          optDefault oracleAllOk → p = 0) :=
  C5_migrate_clean (some "true") true (WsInfo.mk "wm" (some "migration-clean") none none)
    optDefault oracleAllOk (Or.inr rfl) (fun _ => rfl)

theorem deleteArm_reindex (o : Oracle) (hdel : o.deleteOk = true) :
    Act.reindex true ∈ (deleteArm true o).1 ∧
    Act.reindex false ∉ (deleteArm true o).1 ∧
    Act.sendEvent "delete-done" 100 ∈ (deleteArm true o).1 ∧
    (o.fetchOk = false → Act.logError ∈ (deleteArm true o).1) := by
  by_cases hfo : o.fetchOk <;>
    simp [deleteArm, doCleanup, doReindexFulltext, hdel, hfo]

theorem archCleanArm_reindex (o : Oracle) (hdel : o.deleteOk = true) :
    Act.reindex false ∈ (archCleanArm true o).1 ∧
    Act.reindex true ∉ (archCleanArm true o).1 ∧
    Act.sendEvent "archiving-clean-done" 100 ∈ (archCleanArm true o).1 ∧
    (o.fetchOk = false → Act.logError ∈ (archCleanArm true o).1) := by
  by_cases hfo : o.fetchOk <;>
    simp [archCleanArm, doCleanup, doReindexFulltext, hdel, hfo]

/-- C6: with `fulltextUrl` configured and a succeeding destroy adapter,
the Delete cleanup calls the reindex endpoint with `onlyDrop = true` and
never with `false`, while the ArchiveClean cleanup calls it with
`onlyDrop = false` and never with `true`; whether or not the reindex
call fails (which is merely logged), the terminal done event at 100 is
still emitted. -/
theorem C6_reindex_flags (env : Option String) (ws : WsInfo) (opt : Options) (o : Oracle)
    (hdel : o.deleteOk = true) :
    (ws.mode = some "pending-deletion" ∨ ws.mode = some "deleting" →
      Act.reindex true ∈ opTrace env true ws opt o ∧
      Act.reindex false ∉ opTrace env true ws opt o ∧
      Act.sendEvent "delete-done" 100 ∈ opTrace env true ws opt o ∧
      (o.fetchOk = false → Act.logError ∈ opTrace env true ws opt o)) ∧
    (ws.mode = some "archiving-pending-clean" ∨ ws.mode = some "archiving-clean" →
      Act.reindex false ∈ opTrace env true ws opt o ∧
      Act.reindex true ∉ opTrace env true ws opt o ∧
      Act.sendEvent "archiving-clean-done" 100 ∈ opTrace env true ws opt o ∧
      (o.fetchOk = false → Act.logError ∈ opTrace env true ws opt o)) := by
  obtain ⟨n, m, pr, d⟩ := ws
  constructor
  · rintro (h | h)
    · replace h : m = some "pending-deletion" := h
      subst h
      simp only [opTrace, doWsOp_eq_delete1]
      exact deleteArm_reindex o hdel
    · replace h : m = some "deleting" := h
      subst h
      simp only [opTrace, doWsOp_eq_delete2]
      exact deleteArm_reindex o hdel
  · rintro (h | h)
    · replace h : m = some "archiving-pending-clean" := h
      subst h
      simp only [opTrace, doWsOp_eq_archClean1]
      exact archCleanArm_reindex o hdel
    · replace h : m = some "archiving-clean" := h
      subst h
      simp only [opTrace, doWsOp_eq_archClean2]
      exact archCleanArm_reindex o hdel

/-- Collaborator outcomes where the reindex fetch fails and everything
else succeeds. -/
def oracleFetchFail : Oracle := Oracle.mk true true true false false true false true

/-- C6 witness: a deleting workspace whose reindex call returns 500 —
the failure is logged and `delete-done`(100) is still emitted. -/
theorem C6_witness :
    (Act.reindex true ∈
        opTrace none true (WsInfo.mk "w5" (some "deleting") none none) optDefault
          oracleFetchFail ∧
      Act.reindex false ∉
        opTrace none true (WsInfo.mk "w5" (some "deleting") none none) optDefault
          oracleFetchFail ∧
      Act.sendEvent "delete-done" 100 ∈
        opTrace none true (WsInfo.mk "w5" (some "deleting") none none) optDefault
          oracleFetchFail ∧
      (oracleFetchFail.fetchOk = false → Act.logError ∈
        opTrace none true (WsInfo.mk "w5" (some "deleting") none none) optDefault
          oracleFetchFail)) :=
  (C6_reindex_flags none (WsInfo.mk "w5" (some "deleting") none none) optDefault
    oracleFetchFail rfl).1 (Or.inr rfl)

/-- A workspace named `ws` in upgrading mode, not disabled. -/
def wsUp : WsInfo := WsInfo.mk "ws" (some "upgrading") none none

/-- Options whose ignore string is the single entry `ws1`. -/
def optIgnore : Options := Options.mk (some "ws1") false

/-- Helper for splitting a string at commas, accumulating the current
entry in reverse. -/
def splitCommaAux : List Char → List Char → List String
  | [], acc => [String.mk acc.reverse]
  | c :: rest, acc =>
    if c = ',' then String.mk acc.reverse :: splitCommaAux rest []
    else splitCommaAux rest (c :: acc)

/-- The entries of a comma-separated option string, as the claim reads
`ignore`. -/
def splitComma (s : String) : List String :=
  splitCommaAux s.toList []

example : splitComma "ws1,ws2" = ["ws1", "ws2"] := by decide

/-- C7 counterexample: with `ignore = "ws1"` and workspace name `ws`,
the handler is a no-op (because `'ws1'.includes('ws')` is a substring
test and holds), yet `ws` does not appear in the comma-separated list
`["ws1"]`, none of the mode predicates hold and the workspace is not
disabled — refuting the claimed "if and only if". -/
theorem C7_counterexample :
    upgradeActions wsUp optIgnore true = [] ∧
    wsUp.disabled ≠ some true ∧
    isArchivingMode wsUp.mode = false ∧
    isMigrationMode wsUp.mode = false ∧
    isRestoringMode wsUp.mode = false ∧
    splitComma (optIgnore.ignore.getD "") = ["ws1"] ∧
    wsUp.workspace ∉ splitComma (optIgnore.ignore.getD "") := by
  refine ⟨?_, by decide, by decide, by decide, by decide, by decide, by decide⟩
  decide

/-- C7 (amended): the Upgrade handler is a no-op (no event, no
`upgradeWorkspace` call) if and only if `disabled = true`, or the mode
is an archiving, migration or restoring mode, or the workspace name
occurs as a substring of the `ignore` option string (the source tests
`ignore.includes(workspace)`, not membership in the comma-separated
list). -/
theorem C7_upgrade_skip_iff (ws : WsInfo) (opt : Options) (upgradeOk : Bool) :
    upgradeActions ws opt upgradeOk = [] ↔
      (ws.disabled = some true ∨ isArchivingMode ws.mode = true ∨
       isMigrationMode ws.mode = true ∨ isRestoringMode ws.mode = true ∨
       strIncludes (opt.ignore.getD "") ws.workspace = true) := by
  rw [upgradeActions]
  by_cases h : upgradeSkip ws opt
  · rw [if_pos h]
    rw [upgradeSkip] at h
    simp only [Bool.or_eq_true, beq_iff_eq] at h
    simp only [true_iff]
    tauto
  · rw [if_neg h]
    constructor
    · intro habs
      cases upgradeOk <;> simp at habs
    · intro hr
      exfalso
      apply h
      rw [upgradeSkip]
      simp only [Bool.or_eq_true, beq_iff_eq]
      tauto

/-- C8 counterexample: the tracked value starts at 0 without any
emission, so two successive reports that round to 0 produce zero
network calls, not exactly one. -/
theorem C8_counterexample :
    emittedProgress [(0 : ℚ), (0 : ℚ)] = [] ∧
    (emittedProgress [(0 : ℚ), (0 : ℚ)]).length ≠ 1 := by
  constructor <;> decide

/-- C8 (amended): a progress event is emitted exactly when the newly
reported value, rounded to an integer percent, differs from the
reporter's tracked value — which starts at 0 and is updated on each
emission — so consecutive emitted values always differ, and reporting
the same rounded percent twice in a row yields one network call when the
percent differs from the tracked value and zero when it equals it. -/
theorem C8_report_debounce (last : ℤ) (ps : List ℚ) (p : ℚ) :
    List.Chain' (fun a b => a ≠ b) (last :: reportRun last ps) ∧
    reportRun last [p, p] = (if last = jsRound p then [] else [jsRound p]) := by
  refine ⟨reportRun_chain_ne last ps, ?_⟩
  by_cases he : last = jsRound p
  · rw [if_pos he, reportRun, if_pos he, reportRun, if_pos he, reportRun]
  · rw [if_neg he, reportRun, if_neg he, reportRun, if_pos rfl, reportRun]

/-- C9 counterexample: the reporter only de-duplicates; raw callbacks
50 then 40 produce the emitted sequence [50, 40], which is not
monotonically non-decreasing. -/
theorem C9_counterexample :
    emittedProgress [(50 : ℚ), (40 : ℚ)] = [50, 40] ∧
    ¬ List.Chain' (fun a b => a ≤ b) (emittedProgress [(50 : ℚ), (40 : ℚ)]) := by
  have h : emittedProgress [(50 : ℚ), (40 : ℚ)] = [50, 40] := by decide
  refine ⟨h, ?_⟩
  rw [h, List.chain'_cons]
  intro hch
  exact absurd hch.1 (by decide)

/-- C9 (amended): within a single phase execution the emitted progress
sequence is monotonically non-decreasing provided the raw progress
callbacks delivered by the external backup/restore operation are
themselves non-decreasing; the code only rounds and de-duplicates, so it
preserves but does not enforce monotonicity. -/
theorem C9_emitted_monotone (ps : List ℚ)
    (h : List.Chain' (fun a b => a ≤ b) ps) :
    List.Chain' (fun a b => a ≤ b) (emittedProgress ps) := by
  rw [emittedProgress]
  apply reportRun_chain'_le
  rw [List.chain'_map]
  exact h.imp (fun a b hab => jsRound_mono hab)

/-- C9 witness: non-decreasing raw reports 30, 30, 60 yield a
non-decreasing emitted sequence. -/
theorem C9_witness :
    List.Chain' (fun a b => a ≤ b) (emittedProgress [(30 : ℚ), (30 : ℚ), (60 : ℚ)]) :=
  C9_emitted_monotone [(30 : ℚ), (30 : ℚ), (60 : ℚ)]
    (by rw [List.chain'_cons, List.chain'_cons]
        exact ⟨by decide, by decide, List.chain'_singleton _⟩)

theorem archBackupArm_no_backup (opt : Options) (o : Oracle) (hb : opt.backup = false) :
    archBackupArm opt o =
      ([Act.sendEvent "archiving-backup-started" 0, Act.transactorMaintenance], true) := by
  simp [archBackupArm, doBackup, hb]

theorem migBackupArm_no_backup (opt : Options) (o : Oracle) (hb : opt.backup = false) :
    migBackupArm opt o =
      ([Act.sendEvent "migrate-backup-started" 0, Act.transactorMaintenance], true) := by
  simp [migBackupArm, doBackup, hb]

theorem restoreArm_no_backup (ft : Bool) (opt : Options) (o : Oracle)
    (hb : opt.backup = false) :
    restoreArm ft opt o = ([Act.sendEvent "restore-started" 0], true) := by
  simp [restoreArm, doRestore, hb]

/-- C10: when the worker is constructed without `opt.backup`, `doBackup`
and `doRestore` return `false` immediately without building a storage
adapter, so a backup-phase dispatch emits only its started event (at 0)
and the transactor maintenance call, and a restore-phase dispatch emits
only its started event — never the corresponding done event. -/
theorem C10_no_backup_option (env : Option String) (ft : Bool) (ws : WsInfo)
    (opt : Options) (o : Oracle) (hb : opt.backup = false) :
    (ws.mode = some "archiving-pending-backup" ∨ ws.mode = some "archiving-backup" →
      opTrace env ft ws opt o =
        [Act.sendEvent "archiving-backup-started" 0, Act.transactorMaintenance]) ∧
    (ws.mode = some "migration-pending-backup" ∨ ws.mode = some "migration-backup" →
      opTrace env ft ws opt o =
        [Act.sendEvent "migrate-backup-started" 0, Act.transactorMaintenance]) ∧
    (ws.mode = some "pending-restore" ∨ ws.mode = some "restoring" →
      opTrace env ft ws opt o = [Act.sendEvent "restore-started" 0]) ∧
    doBackup opt o true = ([], ExtResult.ok false) ∧
    doBackup opt o false = ([], ExtResult.ok false) ∧
    doRestore opt o = ([], ExtResult.ok false) := by
  obtain ⟨n, m, pr, d⟩ := ws
  refine ⟨?_, ?_, ?_, by simp [doBackup, hb], by simp [doBackup, hb], by simp [doRestore, hb]⟩
  · rintro (h | h)
    · replace h : m = some "archiving-pending-backup" := h
      subst h
      simp only [opTrace, doWsOp_eq_archBackup1, archBackupArm_no_backup opt o hb]
    · replace h : m = some "archiving-backup" := h
      subst h
      simp only [opTrace, doWsOp_eq_archBackup2, archBackupArm_no_backup opt o hb]
  · rintro (h | h)
    · replace h : m = some "migration-pending-backup" := h
      subst h
      simp only [opTrace, doWsOp_eq_migBackup1, migBackupArm_no_backup opt o hb]
    · replace h : m = some "migration-backup" := h
      subst h
      simp only [opTrace, doWsOp_eq_migBackup2, migBackupArm_no_backup opt o hb]
  · rintro (h | h)
    · replace h : m = some "pending-restore" := h
      subst h
      simp only [opTrace, doWsOp_eq_restore1, restoreArm_no_backup ft opt o hb]
    · replace h : m = some "restoring" := h
      subst h
      simp only [opTrace, doWsOp_eq_restore2, restoreArm_no_backup ft opt o hb]

/-- C10 witness: an `archiving-backup` workspace dispatched without a
backup option emits only the started event and maintenance call, and
both pipelines report `false` with empty traces. -/
theorem C10_witness :
    ((WsInfo.mk "w" (some "archiving-backup") none none).mode =
        some "archiving-pending-backup" ∨
     (WsInfo.mk "w" (some "archiving-backup") none none).mode = some "archiving-backup" →
      opTrace none true (WsInfo.mk "w" (some "archiving-backup") none none) optDefault
        oracleAllOk =
        [Act.sendEvent "archiving-backup-started" 0, Act.transactorMaintenance]) ∧
    ((WsInfo.mk "w" (some "archiving-backup") none none).mode =
        some "migration-pending-backup" ∨
     (WsInfo.mk "w" (some "archiving-backup") none none).mode = some "migration-backup" →
      opTrace none true (WsInfo.mk "w" (some "archiving-backup") none none) optDefault
        oracleAllOk =
        [Act.sendEvent "migrate-backup-started" 0, Act.transactorMaintenance]) ∧
    ((WsInfo.mk "w" (some "archiving-backup") none none).mode = some "pending-restore" ∨
     (WsInfo.mk "w" (some "archiving-backup") none none).mode = some "restoring" →
      opTrace none true (WsInfo.mk "w" (some "archiving-backup") none none) optDefault
        oracleAllOk = [Act.sendEvent "restore-started" 0]) ∧
    doBackup optDefault oracleAllOk true = ([], ExtResult.ok false) ∧
    doBackup optDefault oracleAllOk false = ([], ExtResult.ok false) ∧
    doRestore optDefault oracleAllOk = ([], ExtResult.ok false) :=
  C10_no_backup_option none true (WsInfo.mk "w" (some "archiving-backup") none none)
    optDefault oracleAllOk rfl

/-- C1 witness: concrete instances of the amended claim — a deleting
workspace and a migration-clean workspace (with the env flag set) place
the maintenance call before the delete; an archiving-pending-clean
workspace deletes with no maintenance call. -/
theorem C1_witness :
    (∃ rest : List Act,
      opTrace none true (WsInfo.mk "wd" (some "deleting") none none) optDefault
          oracleAllOk =
        Act.sendEvent "delete-started" 0 :: Act.transactorMaintenance :: rest ∧
      Act.dbDelete ∈ rest) ∧
    (∃ rest : List Act,
      opTrace (some "true") true (WsInfo.mk "wm2" (some "migration-pending-clean") none none)
          optDefault oracleAllOk =
        Act.sendEvent "migrate-clean-started" 0 :: Act.transactorMaintenance :: rest ∧
      Act.dbDelete ∈ rest) ∧
    (Act.dbDelete ∈
      opTrace none true (WsInfo.mk "wa" (some "archiving-pending-clean") none none)
        optDefault oracleAllOk ∧
     Act.transactorMaintenance ∉
      opTrace none true (WsInfo.mk "wa" (some "archiving-pending-clean") none none)
        optDefault oracleAllOk) :=
  ⟨(C1_amended none true (WsInfo.mk "wd" (some "deleting") none none) optDefault
      oracleAllOk).1 (Or.inr rfl),
   (C1_amended (some "true") true (WsInfo.mk "wm2" (some "migration-pending-clean") none none)
      optDefault oracleAllOk).2.1 (Or.inl rfl) rfl,
   (C1_amended none true (WsInfo.mk "wa" (some "archiving-pending-clean") none none)
      optDefault oracleAllOk).2.2 (Or.inl rfl)⟩
